import Mathlib

set_option maxHeartbeats 1000000

/-!
Verification of the temporal-spatial alignment and index-composition engine of
the Climate-drought repository.  The definitions below are shallow embeddings
of the Python source in climate_drought/utils.py and
climate_drought/drought_indices.py: dates become explicit year/month/day
triples, floating point values become rationals with an explicit missing
marker (Option, covering both NaN and values excluded by the area sentinel
after the polygon branch maps the sentinel to NaN), and the numpy masked
assignments of the CDI classifier become a chain of conditional updates.
-/

/-- Calendar date with year (integer, Gregorian), month 1..12 and day 1..31,
mirroring the pandas Timestamp values manipulated by the source. -/
structure Date where
  year : Int
  month : Nat
  day : Nat
deriving DecidableEq, Repr

/-- Gregorian leap year rule used by pandas date arithmetic. -/
def isLeap (y : Int) : Bool :=
  (y % 4 == 0 && y % 100 != 0) || (y % 400 == 0)

/-- Number of days of a month, as used by calendar arithmetic on Timestamps. -/
def daysInMonth (y : Int) (m : Nat) : Nat :=
  if m = 2 then (if isLeap y then 29 else 28)
  else if m = 4 ∨ m = 6 ∨ m = 9 ∨ m = 11 then 30
  else 31

/-- Step one day back (pandas Timestamp minus one day). -/
def subOneDay : Date → Date
  | ⟨y, m, d⟩ =>
    if 1 < d then ⟨y, m, d - 1⟩
    else if 1 < m then ⟨y, m - 1, daysInMonth y (m - 1)⟩
    else ⟨y - 1, 12, 31⟩

/-- Step a number of days back (relativedelta of days in CDI initialisation). -/
def subDays (d : Date) : Nat → Date
  | 0 => d
  | n + 1 => subOneDay (subDays d n)

/-- Step one day forward (the daily stride of a pandas date range). -/
def nextDay : Date → Date
  | ⟨y, m, d⟩ =>
    if d < daysInMonth y m then ⟨y, m, d + 1⟩
    else if m < 12 then ⟨y, m + 1, 1⟩
    else ⟨y + 1, 1, 1⟩

/-- utils.nearest_dekad: 1 if day below 11, 11 if below 21, else 21. -/
def nearest_dekad (day : Nat) : Nat :=
  if day < 11 then 1 else if day < 21 then 11 else 21

/-- Timestamp.replace with the nearest dekad day, as done in CDI helper
aa_new and for the normalised start date. -/
def snapDekad : Date → Date
  | ⟨y, m, d⟩ => ⟨y, m, nearest_dekad d⟩

/-- Timestamp.replace(day=1) minus relativedelta(months=1): the first day of
the previous month, used for the SPI window start in CDI initialisation. -/
def prevMonthFirst : Date → Date
  | ⟨y, m, _⟩ => if m = 1 then ⟨y - 1, 12, 1⟩ else ⟨y, m - 1, 1⟩

/-- Boolean strict ordering of dates (lexicographic on year, month, day). -/
def dlt (a b : Date) : Bool :=
  decide (a.year < b.year) ||
    (decide (a.year = b.year) &&
      (decide (a.month < b.month) ||
        (decide (a.month = b.month) && decide (a.day < b.day))))

/-- Non-strict boolean ordering of dates. -/
def dle (a b : Date) : Bool := dlt a b || decide (a = b)

/-- Warning test of the CDI classifier: value strictly below -1, with the
numpy convention that a comparison against NaN (missing) is False. -/
def warnLt (o : Option ℚ) : Bool :=
  match o with
  | none => false
  | some v => decide (v < -1)

/-- calc_cdi from CDI.process (drought_indices.py lines 926..937): the numpy
masked assignments become a chain of conditional updates in the same order,
with the final assignment restoring missing wherever any input is missing. -/
def calc_cdi (spi sma fpr : Option ℚ) : Option ℚ :=
  let spiW := warnLt spi
  let smaW := warnLt sma
  let fprW := warnLt fpr
  let cdi : Option ℚ := none
  let cdi := if !spiW then some 0 else cdi
  let cdi := if spiW then some 1 else cdi
  let cdi := if spiW && smaW then some 2 else cdi
  let cdi := if spiW && fprW then some 3 else cdi
  let cdi := if spiW && smaW && fprW then some 4 else cdi
  let cdi := if spi.isNone || sma.isNone || fpr.isNone then none else cdi
  cdi

/-- C1: the CDI severity classifier returns missing exactly when one of the
three lag-shifted inputs is missing or excluded, and otherwise follows the
cascade 4 (all three warn), 3 (spi and fpr), 2 (spi and sma), 1 (spi), 0; in
particular (-1.5, -0.2, -1.2) maps to 3, (-0.5, -2, -2) maps to 0, and
(-2, missing, -2) maps to missing. -/
theorem C1_calc_cdi_classification (spi sma fpr : Option ℚ) :
    (calc_cdi spi sma fpr =
      if spi.isNone ∨ sma.isNone ∨ fpr.isNone then none
      else if warnLt spi ∧ warnLt sma ∧ warnLt fpr then some 4
      else if warnLt spi ∧ warnLt fpr then some 3
      else if warnLt spi ∧ warnLt sma then some 2
      else if warnLt spi then some 1
      else some 0) ∧
    ((calc_cdi spi sma fpr).isNone ↔ (spi.isNone ∨ sma.isNone ∨ fpr.isNone)) ∧
    calc_cdi (some (-3/2)) (some (-1/5)) (some (-6/5)) = some 3 ∧
    calc_cdi (some (-1/2)) (some (-2)) (some (-2)) = some 0 ∧
    calc_cdi (some (-2)) none (some (-2)) = none := by
  refine ⟨?_, ?_, by norm_num [calc_cdi, warnLt], by norm_num [calc_cdi, warnLt],
    by norm_num [calc_cdi, warnLt]⟩
  · rcases spi with _ | s <;> rcases sma with _ | m <;> rcases fpr with _ | f <;>
      (try (by_cases hs : s < -1)) <;> (try (by_cases hm : m < -1)) <;>
      (try (by_cases hf : f < -1)) <;>
      simp_all [calc_cdi, warnLt, not_lt, and_assoc]
  · rcases spi with _ | s <;> rcases sma with _ | m <;> rcases fpr with _ | f <;>
      (try (by_cases hs : s < -1)) <;> (try (by_cases hm : m < -1)) <;>
      (try (by_cases hf : f < -1)) <;>
      simp_all [calc_cdi, warnLt, not_lt, and_assoc] <;>
      (try (split_ifs <;> simp_all))

/-- DataArray.shift along the time dimension (xarray semantics): the first
lag entries become missing, the tail entries beyond the original length are
dropped, and the length of the series is preserved (no wraparound and no
extrapolation). -/
def xshift (k : Nat) (s : List (Option ℚ)) : List (Option ℚ) :=
  List.replicate (min k s.length) none ++ s.take (s.length - k)

/-- CDI.process lines 913..916: shift the reindexed SPI series by 3 dekads,
the SMA series by 2 and the fAPAR series by 1, along the shared canonical
dekad grid. -/
def cdi_apply_lags (spi sma fpr : List (Option ℚ)) :
    List (Option ℚ) × List (Option ℚ) × List (Option ℚ) :=
  (xshift 3 spi, xshift 2 sma, xshift 1 fpr)

/-- C2: the shift used by CDI.process satisfies the lag-shift law: the length
of the canonical grid is preserved, position t of the shifted series holds
the original value at position t - k whenever k <= t, the first k positions
are missing, and the lags applied to SPI, SMA and fAPAR are 3, 2 and 1
dekads respectively. -/
theorem C2_lag_shift_law (s : List (Option ℚ)) (k t : Nat) (ht : t < s.length) :
    (xshift k s).length = s.length ∧
    (k ≤ t → (xshift k s).getD t none = s.getD (t - k) none) ∧
    (t < k → (xshift k s).getD t none = none) ∧
    (∀ spi sma fpr : List (Option ℚ),
      cdi_apply_lags spi sma fpr = (xshift 3 spi, xshift 2 sma, xshift 1 fpr)) := by
  refine ⟨?_, ?_, ?_, fun _ _ _ => rfl⟩
  · simp only [xshift, List.length_append, List.length_replicate, List.length_take]
    omega
  · intro hk
    have hmin : min k s.length = k := by omega
    rw [xshift, List.getD_append_right _ _ _ _ (by rw [List.length_replicate]; omega)]
    rw [List.length_replicate, hmin]
    have h1 : t - k < (s.take (s.length - k)).length := by
      rw [List.length_take]; omega
    rw [List.getD_eq_getElem _ _ h1, List.getElem_take,
      List.getD_eq_getElem _ _ (by omega)]
  · intro hk
    have h2 : t < (List.replicate (min k s.length) (none : Option ℚ)).length := by
      rw [List.length_replicate]; omega
    rw [xshift, List.getD_append _ _ _ _ h2, List.getD_eq_getElem _ _ h2,
      List.getElem_replicate]

/-- Witness for C2 at the concrete series [5, 7] with lag 1 and position 1. -/
theorem C2_lag_shift_law_witness :
    (xshift 1 [some (5:ℚ), some 7]).length = 2 ∧
    (1 ≤ 1 → (xshift 1 [some (5:ℚ), some 7]).getD 1 none =
      [some (5:ℚ), some 7].getD 0 none) ∧
    (1 < 1 → (xshift 1 [some (5:ℚ), some 7]).getD 1 none = none) ∧
    (∀ spi sma fpr : List (Option ℚ),
      cdi_apply_lags spi sma fpr = (xshift 3 spi, xshift 2 sma, xshift 1 fpr)) :=
  C2_lag_shift_law [some 5, some 7] 1 1 (by decide)

/-- The dekad day assigned by the arithmetic of utils.dti_dekads: the day of
month is replaced by clip((day - 1) div 10, 0, 2) * 10 + 1 (subtracting the
offset d computed there is equivalent to this direct form; the lower clip
bound 0 is automatic for day at least 1). -/
def dekadAssign : Date → Date
  | ⟨y, m, d⟩ => ⟨y, m, min ((d - 1) / 10) 2 * 10 + 1⟩

/-- The consecutive daily range produced by pd.date_range, given its start
day and the number of days it contains. -/
def dateListFrom (s : Date) : Nat → List Date
  | 0 => []
  | n + 1 => s :: dateListFrom (nextDay s) n

/-- Insert a date into a strictly sorted duplicate-free list, keeping it
strictly sorted and duplicate-free. -/
def insertUnique (a : Date) : List Date → List Date
  | [] => [a]
  | b :: t => if dlt a b then a :: b :: t else if a = b then b :: t else b :: insertUnique a t

/-- np.unique: the sorted list of the distinct values of the input list. -/
def sortUnique (l : List Date) : List Date := l.foldr insertUnique []

/-- utils.dti_dekads: map every day of the daily range to its dekad start,
then deduplicate and sort (np.unique). -/
def dti_dekads (s : Date) (ndays : Nat) : List Date :=
  sortUnique ((dateListFrom s ndays).map dekadAssign)

/-- Transitivity of the strict date order. -/
theorem dlt_trans {a b c : Date} (h1 : dlt a b = true) (h2 : dlt b c = true) :
    dlt a c = true := by
  rcases a with ⟨ay, am, ad⟩; rcases b with ⟨by1, bm, bd⟩; rcases c with ⟨cy, cm, cd⟩
  simp only [dlt, Bool.or_eq_true, Bool.and_eq_true, decide_eq_true_eq] at *
  omega

/-- Totality of the strict date order: distinct incomparable dates compare
the other way. -/
theorem dlt_of_not {a b : Date} (h1 : dlt a b = false) (h2 : ¬ a = b) : dlt b a = true := by
  rcases a with ⟨ay, am, ad⟩; rcases b with ⟨by1, bm, bd⟩
  simp only [dlt, Bool.or_eq_false_iff, Bool.and_eq_false_iff, Bool.or_eq_true,
    Bool.and_eq_true, decide_eq_true_eq, decide_eq_false_iff_not, Date.mk.injEq] at *
  omega

/-- Values in the output of insertUnique come from the inserted value or the
original list. -/
theorem mem_insertUnique {c a : Date} {l : List Date} (h : c ∈ insertUnique a l) :
    c = a ∨ c ∈ l := by
  induction l with
  | nil =>
    rw [insertUnique] at h
    exact Or.inl (List.mem_singleton.mp h)
  | cons b t ih =>
    rw [insertUnique] at h
    by_cases h1 : dlt a b = true
    · rw [if_pos h1] at h
      rcases List.mem_cons.mp h with rfl | h2
      · exact Or.inl rfl
      · exact Or.inr h2
    · rw [if_neg h1] at h
      by_cases h2 : a = b
      · rw [if_pos h2] at h
        exact Or.inr h
      · rw [if_neg h2] at h
        rcases List.mem_cons.mp h with rfl | h3
        · exact Or.inr (List.mem_cons_self _ _)
        · rcases ih h3 with h4 | h4
          · exact Or.inl h4
          · exact Or.inr (List.mem_cons_of_mem _ h4)

/-- insertUnique preserves strict sortedness. -/
theorem pairwise_insertUnique (a : Date) (l : List Date)
    (h : l.Pairwise (fun x y => dlt x y = true)) :
    (insertUnique a l).Pairwise (fun x y => dlt x y = true) := by
  induction l with
  | nil => simp [insertUnique]
  | cons b t ih =>
    have hb : ∀ x ∈ t, dlt b x = true := fun x hx => List.rel_of_pairwise_cons h hx
    have ht : t.Pairwise (fun x y => dlt x y = true) := h.of_cons
    rw [insertUnique]
    by_cases h1 : dlt a b = true
    · rw [if_pos h1]
      refine List.Pairwise.cons ?_ h
      intro x hx
      rcases List.mem_cons.mp hx with rfl | hx2
      · exact h1
      · exact dlt_trans h1 (hb x hx2)
    · rw [if_neg h1]
      by_cases h2 : a = b
      · rw [if_pos h2]
        exact h
      · rw [if_neg h2]
        refine List.Pairwise.cons ?_ (ih ht)
        intro x hx
        rcases mem_insertUnique hx with rfl | hx2
        · exact dlt_of_not (Bool.eq_false_iff.mpr h1) h2
        · exact hb x hx2

/-- The sorted deduplicated list is strictly increasing. -/
theorem pairwise_sortUnique (l : List Date) :
    (sortUnique l).Pairwise (fun x y => dlt x y = true) := by
  induction l with
  | nil => simp [sortUnique]
  | cons a t ih => exact pairwise_insertUnique a _ ih

/-- Values of the sorted deduplicated list come from the input list. -/
theorem mem_sortUnique {c : Date} {l : List Date} (h : c ∈ sortUnique l) : c ∈ l := by
  induction l with
  | nil => simp [sortUnique] at h
  | cons a t ih =>
    rcases mem_insertUnique h with rfl | h2
    · exact List.mem_cons_self _ _
    · exact List.mem_cons_of_mem _ (ih h2)

set_option maxRecDepth 8000 in
/-- C4: the dekad grid generator produces a strictly increasing duplicate-free
sequence whose entries all fall on day 1, 11 or 21, and on the daily range
from 2020-01-05 to 2020-02-25 (52 days) it yields exactly the six dekad
boundaries 2020-01-01, 2020-01-11, 2020-01-21, 2020-02-01, 2020-02-11 and
2020-02-21. -/
theorem C4_dti_dekads_grid (s : Date) (n : Nat) :
    (dti_dekads s n).Pairwise (fun a b => dlt a b = true) ∧
    (∀ d ∈ dti_dekads s n, d.day = 1 ∨ d.day = 11 ∨ d.day = 21) ∧
    dti_dekads ⟨2020,1,5⟩ 52 =
      [⟨2020,1,1⟩, ⟨2020,1,11⟩, ⟨2020,1,21⟩, ⟨2020,2,1⟩, ⟨2020,2,11⟩, ⟨2020,2,21⟩] := by
  refine ⟨pairwise_sortUnique _, ?_, by decide⟩
  intro d hd
  have h2 := mem_sortUnique hd
  rcases List.mem_map.mp h2 with ⟨orig, _, rfl⟩
  simp only [dekadAssign]
  omega

/-- CDI initialisation: the SPI component window start, the first day of the
month before the requested start (aa_new then snaps day 1 to itself). -/
def cdi_spi_start (start : Date) : Date := snapDekad (prevMonthFirst start)

/-- CDI initialisation: the SMA component window start, 20 days before the
dekad-normalised start, snapped back to a dekad boundary by aa_new. -/
def cdi_sma_start (start : Date) : Date := snapDekad (subDays (snapDekad start) 20)

/-- CDI initialisation: the fAPAR component window start, 10 days before the
dekad-normalised start, snapped back to a dekad boundary by aa_new. -/
def cdi_fpr_start (start : Date) : Date := snapDekad (subDays (snapDekad start) 10)

/-- Modelled from the wording of the claim: the dekad boundary immediately
preceding a given dekad boundary (21 to 11, 11 to 1, 1 to the 21st of the
previous month). -/
def prevDekadBoundary : Date → Date
  | ⟨y, m, d⟩ =>
    if 11 < d then ⟨y, m, 11⟩
    else if 1 < d then ⟨y, m, 1⟩
    else if m = 1 then ⟨y - 1, 12, 21⟩ else ⟨y, m - 1, 21⟩

/-- Stepping back a sum of days is stepping back each part in turn. -/
theorem subDays_add (d : Date) (a b : Nat) :
    subDays d (a + b) = subDays (subDays d a) b := by
  induction b with
  | zero => rfl
  | succ b ih => rw [← Nat.add_assoc, subDays, subDays, ih]

/-- Stepping back fewer days than the day of month stays inside the month. -/
theorem subDays_lt_day (y : Int) (m d n : Nat) (h : n < d) :
    subDays ⟨y, m, d⟩ n = ⟨y, m, d - n⟩ := by
  induction n with
  | zero => rfl
  | succ n ih =>
    rw [subDays, ih (by omega)]
    simp only [subOneDay]
    rw [if_pos (by omega)]
    have hd2 : d - n - 1 = d - (n + 1) := by omega
    rw [hd2]

/-- The recursion of subDays can also peel its first step. -/
theorem subDays_succ_out (d : Date) (n : Nat) :
    subDays d (n + 1) = subDays (subOneDay d) n := by
  induction n with
  | zero => rfl
  | succ n ih => rw [subDays, ih, subDays]

/-- Every month has at most 31 days. -/
theorem daysInMonth_le_31 (y : Int) (m : Nat) : daysInMonth y m ≤ 31 := by
  unfold daysInMonth
  split_ifs <;> omega

/-- Every month has at least 28 days. -/
theorem daysInMonth_ge_28 (y : Int) (m : Nat) : 28 ≤ daysInMonth y m := by
  unfold daysInMonth
  split_ifs <;> omega

/-- Every month other than February has at least 30 days. -/
theorem daysInMonth_ge_30 (y : Int) (m : Nat) (h : m ≠ 2) : 30 ≤ daysInMonth y m := by
  unfold daysInMonth
  rw [if_neg h]
  split_ifs <;> omega

/-- Master computation: stepping n+1 days back from the first of a month
(n below 28) lands in the previous month, which is also the month holding
the dekad boundary before day 1; the length of that month is at least 30
whenever the starting month is not March. -/
theorem subDays_from_first (y : Int) (m : Nat) (hm1 : 1 ≤ m) (n : Nat) (hn : n < 28) :
    ∃ y2 m2, 1 ≤ m2 ∧
      prevMonthFirst ⟨y, m, 1⟩ = ⟨y2, m2, 1⟩ ∧
      prevDekadBoundary ⟨y, m, 1⟩ = ⟨y2, m2, 21⟩ ∧
      subDays ⟨y, m, 1⟩ (n + 1) = ⟨y2, m2, daysInMonth y2 m2 - n⟩ ∧
      (m ≠ 3 → 30 ≤ daysInMonth y2 m2) ∧
      daysInMonth y2 m2 ≤ 31 ∧ 28 ≤ daysInMonth y2 m2 := by
  by_cases hm : m = 1
  · refine ⟨y - 1, 12, by omega, ?_, ?_, ?_, ?_, ?_, ?_⟩
    · simp [prevMonthFirst, hm]
    · simp [prevDekadBoundary, hm]
    · rw [subDays_succ_out, hm]
      have h1 : subOneDay ⟨y, 1, 1⟩ = ⟨y - 1, 12, 31⟩ := by
        simp [subOneDay]
      rw [h1, subDays_lt_day _ _ _ _ (by omega)]
      have h2 : daysInMonth (y - 1) 12 = 31 := by simp [daysInMonth]
      rw [h2]
    · intro _
      have h2 : daysInMonth (y - 1) 12 = 31 := by simp [daysInMonth]
      omega
    · exact daysInMonth_le_31 _ _
    · exact daysInMonth_ge_28 _ _
  · refine ⟨y, m - 1, by omega, ?_, ?_, ?_, ?_, ?_, ?_⟩
    · simp [prevMonthFirst, hm]
    · simp [prevDekadBoundary, hm]
    · rw [subDays_succ_out]
      have h1 : subOneDay ⟨y, m, 1⟩ = ⟨y, m - 1, daysInMonth y (m - 1)⟩ := by
        simp only [subOneDay]
        rw [if_neg (by omega), if_pos (by omega)]
      rw [h1, subDays_lt_day _ _ _ _ (by have := daysInMonth_ge_28 y (m-1); omega)]
    · intro h3
      exact daysInMonth_ge_30 _ _ (by omega)
    · exact daysInMonth_le_31 _ _
    · exact daysInMonth_ge_28 _ _

/-- The SMA window start coincides with the second-previous dekad boundary
except when the 20-day step crosses into February. -/
theorem sma_boundary_eq (y : Int) (m d : Nat) (hm1 : 1 ≤ m)
    (hcond : ¬(m = 3 ∧ d < 21)) :
    cdi_sma_start ⟨y, m, d⟩ = prevDekadBoundary (prevDekadBoundary (snapDekad ⟨y, m, d⟩)) := by
  by_cases hA : d < 11
  · have hm3 : m ≠ 3 := fun he => hcond ⟨he, by omega⟩
    have hsnap : snapDekad ⟨y, m, d⟩ = ⟨y, m, 1⟩ := by
      simp [snapDekad, nearest_dekad, hA]
    obtain ⟨y2, m2, hm2a, hpmf, hpdb, hsub, h30, h31, h28⟩ :=
      subDays_from_first y m hm1 19 (by omega)
    have h30a := h30 hm3
    norm_num at hsub
    rw [cdi_sma_start, hsnap, hsub, hpdb]
    simp only [snapDekad, nearest_dekad, prevDekadBoundary]
    split_ifs <;> first | rfl | (exfalso; omega)
  · by_cases hB : d < 21
    · have hm3 : m ≠ 3 := fun he => hcond ⟨he, by omega⟩
      have hsnap : snapDekad ⟨y, m, d⟩ = ⟨y, m, 11⟩ := by
        simp only [snapDekad, nearest_dekad]
        rw [if_neg (by omega), if_pos (by omega)]
      have h20 : subDays (⟨y, m, 11⟩ : Date) 20 = subDays ⟨y, m, 1⟩ 10 := by
        have h1 : subDays (⟨y, m, 11⟩ : Date) 10 = ⟨y, m, 1⟩ := by
          rw [subDays_lt_day y m 11 10 (by omega)]
        rw [show (20 : Nat) = 10 + 10 from rfl, subDays_add, h1]
      obtain ⟨y2, m2, hm2a, hpmf, hpdb, hsub, h30, h31, h28⟩ :=
        subDays_from_first y m hm1 9 (by omega)
      have h30a := h30 hm3
      norm_num at hsub
      have hpd1 : prevDekadBoundary ⟨y, m, 11⟩ = ⟨y, m, 1⟩ := by
        simp only [prevDekadBoundary]
        rw [if_neg (by omega), if_pos (by omega)]
      rw [cdi_sma_start, hsnap, h20, hsub, hpd1, hpdb]
      simp only [snapDekad, nearest_dekad]
      split_ifs <;> first | rfl | (exfalso; omega)
    · have hsnap : snapDekad ⟨y, m, d⟩ = ⟨y, m, 21⟩ := by
        simp only [snapDekad, nearest_dekad]
        rw [if_neg (by omega), if_neg (by omega)]
      have hp1 : prevDekadBoundary ⟨y, m, 21⟩ = ⟨y, m, 11⟩ := by
        simp only [prevDekadBoundary]
        rw [if_pos (by omega)]
      have hp2 : prevDekadBoundary ⟨y, m, 11⟩ = ⟨y, m, 1⟩ := by
        simp only [prevDekadBoundary]
        rw [if_neg (by omega), if_pos (by omega)]
      rw [cdi_sma_start, hsnap, subDays_lt_day y m 21 20 (by omega), hp1, hp2]
      simp [snapDekad, nearest_dekad]

/-- The fAPAR window start coincides with the previous dekad boundary except
when the 10-day step crosses into February. -/
theorem fpr_boundary_eq (y : Int) (m d : Nat) (hm1 : 1 ≤ m)
    (hcond : ¬(m = 3 ∧ d < 11)) :
    cdi_fpr_start ⟨y, m, d⟩ = prevDekadBoundary (snapDekad ⟨y, m, d⟩) := by
  by_cases hA : d < 11
  · have hm3 : m ≠ 3 := fun he => hcond ⟨he, by omega⟩
    have hsnap : snapDekad ⟨y, m, d⟩ = ⟨y, m, 1⟩ := by
      simp [snapDekad, nearest_dekad, hA]
    obtain ⟨y2, m2, hm2a, hpmf, hpdb, hsub, h30, h31, h28⟩ :=
      subDays_from_first y m hm1 9 (by omega)
    have h30a := h30 hm3
    norm_num at hsub
    rw [cdi_fpr_start, hsnap, hsub, hpdb]
    simp only [snapDekad, nearest_dekad]
    split_ifs <;> first | rfl | (exfalso; omega)
  · by_cases hB : d < 21
    · have hsnap : snapDekad ⟨y, m, d⟩ = ⟨y, m, 11⟩ := by
        simp only [snapDekad, nearest_dekad]
        rw [if_neg (by omega), if_pos (by omega)]
      have hp2 : prevDekadBoundary ⟨y, m, 11⟩ = ⟨y, m, 1⟩ := by
        simp only [prevDekadBoundary]
        rw [if_neg (by omega), if_pos (by omega)]
      rw [cdi_fpr_start, hsnap, subDays_lt_day y m 11 10 (by omega), hp2]
      simp [snapDekad, nearest_dekad]
    · have hsnap : snapDekad ⟨y, m, d⟩ = ⟨y, m, 21⟩ := by
        simp only [snapDekad, nearest_dekad]
        rw [if_neg (by omega), if_neg (by omega)]
      have hp1 : prevDekadBoundary ⟨y, m, 21⟩ = ⟨y, m, 11⟩ := by
        simp only [prevDekadBoundary]
        rw [if_pos (by omega)]
      rw [cdi_fpr_start, hsnap, subDays_lt_day y m 21 10 (by omega), hp1]
      simp [snapDekad, nearest_dekad]

/-- Snapping any date to a dekad produces day 1, 11 or 21. -/
theorem snapDekad_day_cases (x : Date) :
    (snapDekad x).day = 1 ∨ (snapDekad x).day = 11 ∨ (snapDekad x).day = 21 := by
  obtain ⟨a, b, c⟩ := x
  simp only [snapDekad, nearest_dekad]
  split_ifs <;> simp

/-- C3 (amended): the SPI window always starts on the first day of the month
one month before the requested start; the SMA and fAPAR window starts are the
dekad snap of the normalised start minus 20 and 10 days, each lying on a
dekad boundary, and they equal exactly the second-previous and previous
dekad boundary of the normalised start except when that subtraction crosses
into February, that is when the start month is March with normalised day
below 21 (SMA) or below 11 (fAPAR). -/
theorem C3_component_window_starts (start : Date)
    (hm1 : 1 ≤ start.month) (hm2 : start.month ≤ 12) :
    cdi_spi_start start = prevMonthFirst start ∧
    (cdi_spi_start start).day = 1 ∧
    ((cdi_sma_start start).day = 1 ∨ (cdi_sma_start start).day = 11 ∨
      (cdi_sma_start start).day = 21) ∧
    ((cdi_fpr_start start).day = 1 ∨ (cdi_fpr_start start).day = 11 ∨
      (cdi_fpr_start start).day = 21) ∧
    (¬(start.month = 3 ∧ start.day < 21) →
      cdi_sma_start start = prevDekadBoundary (prevDekadBoundary (snapDekad start))) ∧
    (¬(start.month = 3 ∧ start.day < 11) →
      cdi_fpr_start start = prevDekadBoundary (snapDekad start)) := by
  obtain ⟨y, m, d⟩ := start
  refine ⟨?_, ?_, snapDekad_day_cases _, snapDekad_day_cases _,
    fun hc => sma_boundary_eq y m d hm1 hc, fun hc => fpr_boundary_eq y m d hm1 hc⟩
  · by_cases hm : m = 1 <;>
      simp [cdi_spi_start, prevMonthFirst, hm, snapDekad, nearest_dekad]
  · by_cases hm : m = 1 <;>
      simp [cdi_spi_start, prevMonthFirst, hm, snapDekad, nearest_dekad]

/-- Counterexample for C3 as stated: for a start of 2021-03-01 the SMA window
starts on 2021-02-01 rather than the second-previous dekad boundary
2021-02-11, and the fAPAR window starts on 2021-02-11 rather than the
previous dekad boundary 2021-02-21, because subtracting 20 or 10 days lands
inside 28-day February before snapping. -/
theorem C3_march_counterexample :
    cdi_sma_start ⟨2021, 3, 1⟩ = ⟨2021, 2, 1⟩ ∧
    prevDekadBoundary (prevDekadBoundary (snapDekad ⟨2021, 3, 1⟩)) = ⟨2021, 2, 11⟩ ∧
    cdi_sma_start ⟨2021, 3, 1⟩ ≠
      prevDekadBoundary (prevDekadBoundary (snapDekad ⟨2021, 3, 1⟩)) ∧
    cdi_fpr_start ⟨2021, 3, 1⟩ = ⟨2021, 2, 11⟩ ∧
    prevDekadBoundary (snapDekad ⟨2021, 3, 1⟩) = ⟨2021, 2, 21⟩ ∧
    cdi_fpr_start ⟨2021, 3, 1⟩ ≠ prevDekadBoundary (snapDekad ⟨2021, 3, 1⟩) := by
  decide

/-- Witness for C3 at the concrete start 2021-05-15. -/
theorem C3_component_window_starts_witness :
    cdi_spi_start ⟨2021, 5, 15⟩ = prevMonthFirst ⟨2021, 5, 15⟩ ∧
    (cdi_spi_start ⟨2021, 5, 15⟩).day = 1 ∧
    ((cdi_sma_start ⟨2021, 5, 15⟩).day = 1 ∨ (cdi_sma_start ⟨2021, 5, 15⟩).day = 11 ∨
      (cdi_sma_start ⟨2021, 5, 15⟩).day = 21) ∧
    ((cdi_fpr_start ⟨2021, 5, 15⟩).day = 1 ∨ (cdi_fpr_start ⟨2021, 5, 15⟩).day = 11 ∨
      (cdi_fpr_start ⟨2021, 5, 15⟩).day = 21) ∧
    (¬((Date.mk 2021 5 15).month = 3 ∧ (Date.mk 2021 5 15).day < 21) →
      cdi_sma_start ⟨2021, 5, 15⟩ =
        prevDekadBoundary (prevDekadBoundary (snapDekad ⟨2021, 5, 15⟩))) ∧
    (¬((Date.mk 2021 5 15).month = 3 ∧ (Date.mk 2021 5 15).day < 11) →
      cdi_fpr_start ⟨2021, 5, 15⟩ = prevDekadBoundary (snapDekad ⟨2021, 5, 15⟩)) :=
  C3_component_window_starts ⟨2021, 5, 15⟩ (by decide) (by decide)

/-- Axis-aligned rectangle in lon/lat coordinate space. -/
structure Rect where
  minx : ℚ
  maxx : ℚ
  miny : ℚ
  maxy : ℚ
deriving DecidableEq, Repr

/-- polycell from utils.mask_ds_poly: the rectangular grid-cell footprint
centred on (x, y) with half-extent half the grid spacing in each axis. -/
def polycell (gx gy x y : ℚ) : Rect :=
  ⟨x - gx/2, x + gx/2, y - gy/2, y + gy/2⟩

/-- The shapely intersects predicate restricted to the axis-aligned
rectangles appearing in mask_ds_poly (a rectangular polygon and rectangular
cell footprints): the closed sets share a point exactly when the bound
intervals touch or overlap on both axes; mere boundary contact counts. -/
def rectIntersects (a b : Rect) : Bool :=
  decide (a.minx ≤ b.maxx) && decide (b.minx ≤ a.maxx) &&
    decide (a.miny ≤ b.maxy) && decide (b.miny ≤ a.maxy)

/-- Containment of one axis-aligned rectangle in another. -/
def rectContains (a b : Rect) : Bool :=
  decide (a.minx ≤ b.minx) && decide (b.maxx ≤ a.maxx) &&
    decide (a.miny ≤ b.miny) && decide (b.maxy ≤ a.maxy)

/-- Interiors of two axis-aligned rectangles share a point: strict interval
overlap on both axes. -/
def rectInteriorMeets (a b : Rect) : Bool :=
  decide (a.minx < b.maxx) && decide (b.minx < a.maxx) &&
    decide (a.miny < b.maxy) && decide (b.miny < a.maxy)

/-- The shapely overlaps predicate for axis-aligned rectangles: the
interiors intersect and neither geometry contains the other. -/
def rectOverlaps (a b : Rect) : Bool :=
  rectInteriorMeets a b && !rectContains a b && !rectContains b a

/-- The per-cell inclusion test of mask_ds_poly:
pn.overlaps(cell) or pn.intersects(cell). -/
def cellIncluded (pn : Rect) (gx gy x y : ℚ) : Bool :=
  rectOverlaps pn (polycell gx gy x y) || rectIntersects pn (polycell gx gy x y)

/-- utils.mask_ds_bbox on one coordinate axis: ds.where with drop=True keeps
exactly the coordinates within the inclusive bounds. -/
def bboxFilter (xs : List ℚ) (lo hi : ℚ) : List ℚ :=
  xs.filter (fun x => decide (lo ≤ x) && decide (x ≤ hi))

/-- All cell centres of the grid, row by row, as enumerated by the double
loop of mask_ds_poly. -/
def gridCells (lons lats : List ℚ) : List (ℚ × ℚ) :=
  lons.flatMap (fun x => lats.map (fun y => (x, y)))

/-- The cells marked included by mask_ds_poly for a rectangular polygon pn,
with or without the mask_bbox pre-filter that first reduces the axes to the
bounding box of the polygon vertices. -/
def poly_mask_cells (lons lats : List ℚ) (pn : Rect) (gx gy : ℚ)
    (maskBbox : Bool) : List (ℚ × ℚ) :=
  let lons2 := if maskBbox then bboxFilter lons pn.minx pn.maxx else lons
  let lats2 := if maskBbox then bboxFilter lats pn.miny pn.maxy else lats
  (gridCells lons2 lats2).filter (fun c => cellIncluded pn gx gy c.1 c.2)

/-- utils.mask_ds_poly result: the selected cells when the mask is anywhere
true, or the Python value None (returned after only printing a console
message, with no exception raised) when the mask selects zero cells. -/
def mask_ds_poly (lons lats : List ℚ) (pn : Rect) (gx gy : ℚ)
    (maskBbox : Bool) : Option (List (ℚ × ℚ)) :=
  let cells := poly_mask_cells lons lats pn gx gy maskBbox
  if cells.isEmpty then none else some cells

/-- A contiguous index range splits a List.range into three parts. -/
theorem range_split (i0 N n : Nat) (h : i0 + N ≤ n) :
    List.range n =
      List.range' 0 i0 ++ (List.range' i0 N ++ List.range' (i0 + N) (n - (i0 + N))) := by
  rw [List.range_eq_range']
  have h1 : List.range' i0 N ++ List.range' (i0 + N) (n - (i0 + N)) =
      List.range' i0 (n - i0) := by
    have h2 := List.range'_append i0 N (n - (i0 + N)) 1
    simp only [Nat.one_mul] at h2
    rw [h2]
    congr 1
    omega
  rw [h1]
  have h3 := List.range'_append 0 i0 (n - i0) 1
  simp only [Nat.one_mul, Nat.zero_add] at h3
  rw [h3]
  congr 1
  omega

/-- Filtering List.range with a predicate that holds exactly on a contiguous
block yields that block. -/
theorem filter_range_block (q : Nat → Bool) (i0 N n : Nat) (h : i0 + N ≤ n)
    (hq : ∀ i, q i = true ↔ (i0 ≤ i ∧ i < i0 + N)) :
    (List.range n).filter q = List.range' i0 N := by
  rw [range_split i0 N n h, List.filter_append, List.filter_append]
  have e1 : (List.range' 0 i0).filter q = [] := by
    rw [List.filter_eq_nil_iff]
    intro a ha hqa
    rw [List.mem_range'_1] at ha
    have := (hq a).mp hqa
    omega
  have e2 : (List.range' i0 N).filter q = List.range' i0 N := by
    rw [List.filter_eq_self]
    intro a ha
    rw [List.mem_range'_1] at ha
    rw [hq]
    omega
  have e3 : (List.range' (i0 + N) (n - (i0 + N))).filter q = [] := by
    rw [List.filter_eq_nil_iff]
    intro a ha hqa
    rw [List.mem_range'_1] at ha
    have := (hq a).mp hqa
    omega
  rw [e1, e2, e3]
  simp

/-- Cast arithmetic for the top index of a block. -/
theorem cast_block_top (i0 N : Nat) (hN : 1 ≤ N) :
    ((i0 + N - 1 : Nat) : ℚ) = (i0 : ℚ) + (N : ℚ) - 1 := by
  rw [Nat.cast_sub (by omega)]
  push_cast
  ring

/-- A grid coordinate lies within the inclusive bbox bounds of an exactly
block-aligned polygon exactly when its index lies in the block. -/
theorem block_mem_iff (a gx : ℚ) (hg : 0 < gx) (i0 N i : Nat) (hN : 1 ≤ N) :
    ((a + (i0 : ℚ) * gx - gx/2 ≤ a + (i : ℚ) * gx) ∧
      (a + (i : ℚ) * gx ≤ a + ((i0 + N - 1 : Nat) : ℚ) * gx + gx/2))
      ↔ (i0 ≤ i ∧ i < i0 + N) := by
  rw [cast_block_top i0 N hN]
  constructor
  · rintro ⟨h1, h2⟩
    constructor
    · by_contra hc
      have hq : (i : ℚ) + 1 ≤ (i0 : ℚ) := by exact_mod_cast Nat.succ_le_of_lt (Nat.lt_of_not_le hc)
      nlinarith [mul_nonneg (by linarith : (0:ℚ) ≤ (i0 : ℚ) - (i : ℚ) - 1) hg.le]
    · by_contra hc
      have hq : (i0 : ℚ) + (N : ℚ) ≤ (i : ℚ) := by exact_mod_cast Nat.le_of_not_lt hc
      nlinarith [mul_nonneg (by linarith : (0:ℚ) ≤ (i : ℚ) - ((i0 : ℚ) + (N : ℚ) - 1) - 1) hg.le]
  · rintro ⟨h1, h2⟩
    have hc1 : (i0 : ℚ) ≤ (i : ℚ) := by exact_mod_cast h1
    have hc2 : (i : ℚ) + 1 ≤ (i0 : ℚ) + (N : ℚ) := by exact_mod_cast h2
    constructor
    · nlinarith [mul_nonneg (by linarith : (0:ℚ) ≤ (i : ℚ) - (i0 : ℚ)) hg.le]
    · nlinarith [mul_nonneg (by linarith : (0:ℚ) ≤ (i0 : ℚ) + (N : ℚ) - 1 - (i : ℚ)) hg.le]

/-- The bbox pre-filter on a regular axis keeps exactly the block indices. -/
theorem bbox_filter_block (a gx : ℚ) (hg : 0 < gx) (n i0 N : Nat)
    (hN : 1 ≤ N) (hn : i0 + N ≤ n) :
    bboxFilter ((List.range n).map (fun i : Nat => a + (i : ℚ) * gx))
      (a + (i0 : ℚ) * gx - gx/2) (a + ((i0 + N - 1 : Nat) : ℚ) * gx + gx/2)
      = (List.range' i0 N).map (fun i : Nat => a + (i : ℚ) * gx) := by
  rw [bboxFilter, List.filter_map]
  congr 1
  apply filter_range_block _ i0 N n hn
  intro i
  simp only [Function.comp, Bool.and_eq_true, decide_eq_true_eq]
  exact block_mem_iff a gx hg i0 N i hN

/-- Every cell of the block passes the polygon inclusion test, through the
intersects disjunct. -/
theorem block_cell_included (lon0 lat0 gx gy : ℚ) (hgx : 0 < gx) (hgy : 0 < gy)
    (i0 j0 N M i j : Nat) (hN : 1 ≤ N) (hM : 1 ≤ M)
    (hi1 : i0 ≤ i) (hi2 : i < i0 + N) (hj1 : j0 ≤ j) (hj2 : j < j0 + M) :
    cellIncluded
      ⟨lon0 + (i0 : ℚ) * gx - gx/2, lon0 + ((i0 + N - 1 : Nat) : ℚ) * gx + gx/2,
        lat0 + (j0 : ℚ) * gy - gy/2, lat0 + ((j0 + M - 1 : Nat) : ℚ) * gy + gy/2⟩
      gx gy (lon0 + (i : ℚ) * gx) (lat0 + (j : ℚ) * gy) = true := by
  rw [cellIncluded, Bool.or_eq_true]
  right
  rw [rectIntersects]
  simp only [polycell, Bool.and_eq_true, decide_eq_true_eq]
  rw [cast_block_top i0 N hN, cast_block_top j0 M hM]
  have hi1q : (i0 : ℚ) ≤ (i : ℚ) := by exact_mod_cast hi1
  have hi2q : (i : ℚ) + 1 ≤ (i0 : ℚ) + (N : ℚ) := by exact_mod_cast hi2
  have hj1q : (j0 : ℚ) ≤ (j : ℚ) := by exact_mod_cast hj1
  have hj2q : (j : ℚ) + 1 ≤ (j0 : ℚ) + (M : ℚ) := by exact_mod_cast hj2
  refine ⟨⟨⟨?_, ?_⟩, ?_⟩, ?_⟩
  · nlinarith [mul_nonneg (by linarith : (0:ℚ) ≤ (i : ℚ) - (i0 : ℚ) + 1) hgx.le]
  · nlinarith [mul_nonneg (by linarith : (0:ℚ) ≤ (i0 : ℚ) + (N : ℚ) - (i : ℚ)) hgx.le]
  · nlinarith [mul_nonneg (by linarith : (0:ℚ) ≤ (j : ℚ) - (j0 : ℚ) + 1) hgy.le]
  · nlinarith [mul_nonneg (by linarith : (0:ℚ) ≤ (j0 : ℚ) + (M : ℚ) - (j : ℚ)) hgy.le]

/-- Membership in the cell enumeration is coordinatewise membership. -/
theorem mem_gridCells {c : ℚ × ℚ} {l1 l2 : List ℚ} :
    c ∈ gridCells l1 l2 ↔ c.1 ∈ l1 ∧ c.2 ∈ l2 := by
  obtain ⟨cx, cy⟩ := c
  simp only [gridCells, List.mem_flatMap, List.mem_map, Prod.mk.injEq]
  constructor
  · rintro ⟨x, hx, y, hy, rfl, rfl⟩
    exact ⟨hx, hy⟩
  · rintro ⟨hx, hy⟩
    exact ⟨cx, hx, cy, hy, rfl, rfl⟩

/-- The cell enumeration of a grid has one entry per coordinate pair. -/
theorem length_gridCells (l1 l2 : List ℚ) :
    (gridCells l1 l2).length = l1.length * l2.length := by
  induction l1 with
  | nil => simp [gridCells]
  | cons x t ih =>
    simp only [gridCells, List.flatMap_cons, List.length_append, List.length_map,
      List.length_cons] at *
    rw [ih]
    ring

/-- C5: on a regular grid, a rectangular polygon exactly matching the outer
boundary of an N by M block of grid-cell footprints makes mask_ds_poly (with
its default bbox pre-filter) mark exactly the N times M block cells as
included, boundary cells included, no more and no fewer. -/
theorem C5_polygon_block_mask_exact (lon0 lat0 gx gy : ℚ) (nx ny i0 j0 N M : Nat)
    (hgx : 0 < gx) (hgy : 0 < gy) (hN : 1 ≤ N) (hM : 1 ≤ M)
    (hnx : i0 + N ≤ nx) (hny : j0 + M ≤ ny) :
    poly_mask_cells
      ((List.range nx).map (fun i : Nat => lon0 + (i : ℚ) * gx))
      ((List.range ny).map (fun j : Nat => lat0 + (j : ℚ) * gy))
      ⟨lon0 + (i0 : ℚ) * gx - gx/2, lon0 + ((i0 + N - 1 : Nat) : ℚ) * gx + gx/2,
        lat0 + (j0 : ℚ) * gy - gy/2, lat0 + ((j0 + M - 1 : Nat) : ℚ) * gy + gy/2⟩
      gx gy true
      = gridCells ((List.range' i0 N).map (fun i : Nat => lon0 + (i : ℚ) * gx))
          ((List.range' j0 M).map (fun j : Nat => lat0 + (j : ℚ) * gy)) ∧
    (poly_mask_cells
      ((List.range nx).map (fun i : Nat => lon0 + (i : ℚ) * gx))
      ((List.range ny).map (fun j : Nat => lat0 + (j : ℚ) * gy))
      ⟨lon0 + (i0 : ℚ) * gx - gx/2, lon0 + ((i0 + N - 1 : Nat) : ℚ) * gx + gx/2,
        lat0 + (j0 : ℚ) * gy - gy/2, lat0 + ((j0 + M - 1 : Nat) : ℚ) * gy + gy/2⟩
      gx gy true).length = N * M := by
  have hmain : poly_mask_cells
      ((List.range nx).map (fun i : Nat => lon0 + (i : ℚ) * gx))
      ((List.range ny).map (fun j : Nat => lat0 + (j : ℚ) * gy))
      ⟨lon0 + (i0 : ℚ) * gx - gx/2, lon0 + ((i0 + N - 1 : Nat) : ℚ) * gx + gx/2,
        lat0 + (j0 : ℚ) * gy - gy/2, lat0 + ((j0 + M - 1 : Nat) : ℚ) * gy + gy/2⟩
      gx gy true
      = gridCells ((List.range' i0 N).map (fun i : Nat => lon0 + (i : ℚ) * gx))
          ((List.range' j0 M).map (fun j : Nat => lat0 + (j : ℚ) * gy)) := by
    rw [poly_mask_cells]
    simp only [if_true]
    rw [bbox_filter_block lon0 gx hgx nx i0 N hN hnx,
      bbox_filter_block lat0 gy hgy ny j0 M hM hny]
    rw [List.filter_eq_self]
    intro c hc
    rw [mem_gridCells] at hc
    obtain ⟨hc1, hc2⟩ := hc
    obtain ⟨i, hi, hfi⟩ := List.mem_map.mp hc1
    obtain ⟨j, hj, hfj⟩ := List.mem_map.mp hc2
    rw [List.mem_range'_1] at hi hj
    rw [← hfi, ← hfj]
    exact block_cell_included lon0 lat0 gx gy hgx hgy i0 j0 N M i j hN hM
      hi.1 hi.2 hj.1 hj.2
  refine ⟨hmain, ?_⟩
  rw [hmain, length_gridCells, List.length_map, List.length_map,
    List.length_range', List.length_range']

/-- Witness for C5 on a 3 by 3 unit grid with the centre cell as the block. -/
theorem C5_polygon_block_mask_exact_witness :
    (poly_mask_cells
      ((List.range 3).map (fun i : Nat => (0:ℚ) + (i : ℚ) * 1))
      ((List.range 3).map (fun j : Nat => (0:ℚ) + (j : ℚ) * 1))
      ⟨0 + ((1:Nat) : ℚ) * 1 - 1/2, 0 + ((1 + 1 - 1 : Nat) : ℚ) * 1 + 1/2,
        0 + ((1:Nat) : ℚ) * 1 - 1/2, 0 + ((1 + 1 - 1 : Nat) : ℚ) * 1 + 1/2⟩
      1 1 true
      = gridCells ((List.range' 1 1).map (fun i : Nat => (0:ℚ) + (i : ℚ) * 1))
          ((List.range' 1 1).map (fun j : Nat => (0:ℚ) + (j : ℚ) * 1))) ∧
    (poly_mask_cells
      ((List.range 3).map (fun i : Nat => (0:ℚ) + (i : ℚ) * 1))
      ((List.range 3).map (fun j : Nat => (0:ℚ) + (j : ℚ) * 1))
      ⟨0 + ((1:Nat) : ℚ) * 1 - 1/2, 0 + ((1 + 1 - 1 : Nat) : ℚ) * 1 + 1/2,
        0 + ((1:Nat) : ℚ) * 1 - 1/2, 0 + ((1 + 1 - 1 : Nat) : ℚ) * 1 + 1/2⟩
      1 1 true).length = 1 * 1 :=
  C5_polygon_block_mask_exact 0 0 1 1 3 3 1 1 1 1 (by decide) (by decide)
    (by decide) (by decide) (by decide) (by decide)

/-- Filtering by a constant keeps everything or nothing. -/
theorem filter_const {α : Type} (l : List α) (b : Bool) :
    (l.filter fun _ => b) = if b then l else [] := by
  cases b <;> simp

/-- Rotation identity for Boolean conjunction. -/
theorem bool_and_rot (a b c : Bool) : ((a && b) && c) = ((b && c) && a) := by
  cases a <;> cases b <;> cases c <;> rfl

/-- Filtering the first axis before enumerating cells is filtering the cell
list on the first coordinate. -/
theorem gridCells_filter_left (l1 l2 : List ℚ) (p : ℚ → Bool) :
    gridCells (l1.filter p) l2 = (gridCells l1 l2).filter (fun c => p c.1) := by
  induction l1 with
  | nil => rfl
  | cons x t ih =>
    rw [List.filter_cons]
    by_cases hp : p x = true
    · rw [if_pos hp]
      simp only [gridCells, List.flatMap_cons, List.filter_append] at *
      rw [ih]
      congr 1
      rw [List.filter_map]
      have hcomp : ((fun c : ℚ × ℚ => p c.1) ∘ fun y => (x, y)) = fun _ => p x := rfl
      rw [hcomp, filter_const, if_pos hp]
    · rw [if_neg hp]
      simp only [gridCells, List.flatMap_cons, List.filter_append] at *
      rw [ih]
      have h0 : List.filter (fun c : ℚ × ℚ => p c.1) (l2.map fun y => (x, y)) = [] := by
        rw [List.filter_map]
        have hcomp : ((fun c : ℚ × ℚ => p c.1) ∘ fun y => (x, y)) = fun _ => p x := rfl
        rw [hcomp, filter_const, if_neg hp]
        rfl
      rw [h0, List.nil_append]

/-- Filtering the second axis before enumerating cells is filtering the cell
list on the second coordinate. -/
theorem gridCells_filter_right (l1 l2 : List ℚ) (q : ℚ → Bool) :
    gridCells l1 (l2.filter q) = (gridCells l1 l2).filter (fun c => q c.2) := by
  induction l1 with
  | nil => rfl
  | cons x t ih =>
    simp only [gridCells, List.flatMap_cons, List.filter_append] at *
    rw [ih]
    congr 1
    rw [List.filter_map]
    rfl

/-- C6 (amended): the mask computed with the bbox pre-filter equals the mask
computed without it restricted to the cells whose centre lies inside the
polygon bounding box; the pre-filter is therefore not a pure optimisation,
since boundary-touching cells outside the bbox pass the shapely intersects
test but are removed by the pre-filter. -/
theorem C6_bbox_prefilter_amended (lons lats : List ℚ) (pn : Rect) (gx gy : ℚ) :
    poly_mask_cells lons lats pn gx gy true =
      (poly_mask_cells lons lats pn gx gy false).filter
        (fun c => ((decide (pn.minx ≤ c.1) && decide (c.1 ≤ pn.maxx)) &&
          (decide (pn.miny ≤ c.2) && decide (c.2 ≤ pn.maxy)))) := by
  simp only [poly_mask_cells, if_true, if_false, bboxFilter]
  rw [gridCells_filter_left, gridCells_filter_right, List.filter_filter,
    List.filter_filter, List.filter_filter]
  apply List.filter_congr
  intro c hc
  exact bool_and_rot _ _ _

/-- Counterexample for C6 as stated: on the 3 by 3 unit grid with the
centre-cell polygon, enabling the bbox pre-filter selects only the centre
cell while disabling it selects all nine cells, because the eight
surrounding footprints touch the polygon boundary and shapely intersects
counts boundary contact. -/
theorem C6_bbox_prefilter_counterexample :
    poly_mask_cells [1/2, 3/2, 5/2] [1/2, 3/2, 5/2] ⟨1, 2, 1, 2⟩ 1 1 true ≠
      poly_mask_cells [1/2, 3/2, 5/2] [1/2, 3/2, 5/2] ⟨1, 2, 1, 2⟩ 1 1 false ∧
    poly_mask_cells [1/2, 3/2, 5/2] [1/2, 3/2, 5/2] ⟨1, 2, 1, 2⟩ 1 1 true =
      [(3/2, 3/2)] ∧
    (poly_mask_cells [1/2, 3/2, 5/2] [1/2, 3/2, 5/2] ⟨1, 2, 1, 2⟩ 1 1 false).length
      = 9 := by
  refine ⟨?_, ?_, ?_⟩ <;>
    norm_num [poly_mask_cells, gridCells, bboxFilter, cellIncluded, rectIntersects,
      rectOverlaps, rectInteriorMeets, rectContains, polycell]

/-- C7 (amended): mask_ds_poly returns the Python null value None exactly
when the inclusion mask selects zero cells, and any returned dataset is
nonempty; no exception of any kind is raised on the empty selection, the
function merely prints a message and returns None. -/
theorem C7_empty_selection (lons lats : List ℚ) (pn : Rect) (gx gy : ℚ) (b : Bool) :
    (mask_ds_poly lons lats pn gx gy b = none ↔
      poly_mask_cells lons lats pn gx gy b = []) ∧
    (∀ cells, mask_ds_poly lons lats pn gx gy b = some cells →
      cells = poly_mask_cells lons lats pn gx gy b ∧ cells ≠ []) := by
  rw [mask_ds_poly]
  by_cases h : (poly_mask_cells lons lats pn gx gy b).isEmpty = true
  · rw [if_pos h]
    rw [List.isEmpty_iff] at h
    refine ⟨by simp [h], ?_⟩
    intro cells hc
    exact absurd hc (by simp)
  · rw [if_neg h]
    rw [List.isEmpty_iff] at h
    refine ⟨by simp [h], ?_⟩
    intro cells hc
    rw [Option.some_inj] at hc
    exact ⟨hc.symm, hc ▸ h⟩

/-- Counterexample for C7 as stated: a selection over a real grid that
intersects no cell makes mask_ds_poly return the ordinary value None, not
raise a SpatialSelectionEmptyError (no such exception exists in the code). -/
theorem C7_returns_none_counterexample :
    mask_ds_poly [1/2] [1/2] ⟨10, 11, 10, 11⟩ 1 1 false = none ∧
    ([(1:ℚ)/2] : List ℚ) ≠ [] := by
  constructor
  · norm_num [mask_ds_poly, poly_mask_cells, gridCells, bboxFilter, cellIncluded,
      rectIntersects, rectOverlaps, rectInteriorMeets, rectContains, polycell]
  · simp

/-- Witness for C7 at the concrete one-cell grid and distant polygon. -/
theorem C7_empty_selection_witness :
    (mask_ds_poly [1/2] [1/2] ⟨10, 11, 10, 11⟩ 1 1 false = none ↔
      poly_mask_cells [1/2] [1/2] ⟨10, 11, 10, 11⟩ 1 1 false = []) ∧
    (∀ cells, mask_ds_poly [1/2] [1/2] ⟨10, 11, 10, 11⟩ 1 1 false = some cells →
      cells = poly_mask_cells [1/2] [1/2] ⟨10, 11, 10, 11⟩ 1 1 false ∧ cells ≠ []) :=
  C7_empty_selection [1/2] [1/2] ⟨10, 11, 10, 11⟩ 1 1 false

/-- Witness for C4 at the concrete range 2020-01-05 with 52 days. -/
theorem C4_dti_dekads_grid_witness :
    (dti_dekads ⟨2020,1,5⟩ 52).Pairwise (fun a b => dlt a b = true) ∧
    (∀ d ∈ dti_dekads ⟨2020,1,5⟩ 52, d.day = 1 ∨ d.day = 11 ∨ d.day = 21) ∧
    dti_dekads ⟨2020,1,5⟩ 52 =
      [⟨2020,1,1⟩, ⟨2020,1,11⟩, ⟨2020,1,21⟩, ⟨2020,2,1⟩, ⟨2020,2,11⟩, ⟨2020,2,21⟩] :=
  C4_dti_dekads_grid ⟨2020,1,5⟩ 52

/-- numpy mean over the baseline records after the spatial mean (the time
series monthly_swv): NaN for an empty sample, modeled as none. -/
def swv_baseline_mean (l : List ℚ) : Option ℚ :=
  if l.length = 0 then none else some (l.sum / l.length)

/-- numpy population variance of the baseline sample; the standard
deviation used by the z-score is its square root, which vanishes exactly
when the variance vanishes. -/
def swv_baseline_var (l : List ℚ) : Option ℚ :=
  match swv_baseline_mean l with
  | none => none
  | some mu => some ((l.map (fun v => (v - mu) * (v - mu))).sum / l.length)

/-- Possible observable outcomes of one z-score computation in
SMA_ECMWF.process: a finite value (carried as numerator and variance, the
z-score being numer divided by the square root of var2), a silently emitted
non-finite float (NaN or infinity), or a raised exception. -/
inductive SmaOutcome where
  | value (numer var2 : ℚ)
  | nonFinite
  | raised
deriving DecidableEq, Repr

/-- The z-score computation of SMA_ECMWF.process lines 711..724: the code
divides (value - mean) by the baseline standard deviation unconditionally;
numpy turns division by a zero std into inf or NaN with only a runtime
warning, and an empty baseline gives NaN mean and std, so the degenerate
cases produce a non-finite float and no exception path exists. -/
def sma_zscore (baseline : List ℚ) (v : ℚ) : SmaOutcome :=
  match swv_baseline_mean baseline, swv_baseline_var baseline with
  | none, _ => SmaOutcome.nonFinite
  | some _, none => SmaOutcome.nonFinite
  | some mu, some var2 =>
    if var2 = 0 then SmaOutcome.nonFinite
    else SmaOutcome.value (v - mu) var2

/-- C8 (amended): the SMA anomaly computation never raises any error: on a
zero-variance or empty baseline it silently emits a non-finite z-score, and
it does so exactly in those degenerate cases. -/
theorem C8_baseline_degeneracy_silent (baseline : List ℚ) (v : ℚ) :
    sma_zscore baseline v ≠ SmaOutcome.raised ∧
    (sma_zscore baseline v = SmaOutcome.nonFinite ↔
      (baseline = [] ∨ swv_baseline_var baseline = some 0)) := by
  by_cases hb : baseline = []
  · subst hb
    simp [sma_zscore, swv_baseline_mean, swv_baseline_var]
  · have hlen : baseline.length ≠ 0 := fun h => hb (List.length_eq_zero.mp h)
    have hmean : swv_baseline_mean baseline =
        some (baseline.sum / baseline.length) := by
      rw [swv_baseline_mean, if_neg hlen]
    have hvar : swv_baseline_var baseline =
        some ((baseline.map (fun x =>
          (x - baseline.sum / baseline.length) * (x - baseline.sum / baseline.length))).sum
            / baseline.length) := by
      rw [swv_baseline_var, hmean]
    rw [sma_zscore, hmean, hvar]
    by_cases hz : ((baseline.map (fun x =>
        (x - baseline.sum / baseline.length) * (x - baseline.sum / baseline.length))).sum
          / baseline.length) = 0
    · simp [hz, hvar, hb]
    · simp [hz, hvar, hb]

/-- Counterexample for C8 as stated: the constant baseline [5, 5] has zero
standard deviation, yet the z-score computation returns the silently
emitted non-finite outcome rather than raising a BaselineDegeneracyError,
and the empty baseline behaves the same. -/
theorem C8_silent_nonfinite_counterexample :
    sma_zscore [5, 5] 3 = SmaOutcome.nonFinite ∧
    sma_zscore [5, 5] 3 ≠ SmaOutcome.raised ∧
    sma_zscore [] 3 = SmaOutcome.nonFinite := by
  have h1 : sma_zscore [5, 5] 3 = SmaOutcome.nonFinite := by
    norm_num [sma_zscore, swv_baseline_mean, swv_baseline_var]
  refine ⟨h1, ?_, ?_⟩
  · rw [h1]
    decide
  · norm_num [sma_zscore, swv_baseline_mean, swv_baseline_var]

/-- The first day of the month after a date (stride of the monthly
reindex grid pd.date_range with frequency 1MS). -/
def nextMonthStart : Date → Date
  | ⟨y, m, _⟩ => if m = 12 then ⟨y + 1, 1, 1⟩ else ⟨y, m + 1, 1⟩

/-- The first month-start date on or after a date. -/
def firstMonthStartOnOrAfter (d : Date) : Date :=
  if d.day = 1 then ⟨d.year, d.month, 1⟩ else nextMonthStart d

/-- Fuel-bounded enumeration of the month starts up to the end date. -/
def monthStartsAux : Nat → Date → Date → List Date
  | 0, _, _ => []
  | fuel + 1, cur, e =>
    if dle cur e then cur :: monthStartsAux fuel (nextMonthStart cur) e else []

/-- pd.date_range(start, end, freq=1MS): all month starts within the
inclusive window (the fuel bounds the number of months). -/
def monthStarts (s e : Date) : List Date :=
  monthStartsAux (12 * ((e.year - s.year).toNat + 2)) (firstMonthStartOnOrAfter s) e

/-- Exact-match lookup of a time in a time-indexed series. -/
def lookupDate (t : Date) : List (Date × ℚ) → Option ℚ
  | [] => none
  | (d, v) :: tl => if d = t then some v else lookupDate t tl

/-- SPI_ECMWF.process lines 560..567: crop the computed SPI series to the
analysis window, then reindex it onto the monthly grid with explicit
missing entries. -/
def spi_process_core (downloaded : List (Date × ℚ)) (sdate edate : Date) :
    List (Date × Option ℚ) :=
  let filtered := downloaded.filter (fun r => dle sdate r.1 && dle r.1 edate)
  (monthStarts sdate edate).map (fun t => (t, lookupDate t filtered))

/-- The state of an SPI_ECMWF instance that process() reads and writes: the
content of the downloaded file (an external input that can change between
calls) and the data_df stored on the instance, initially empty. -/
structure SPIECMWFState where
  downloadedSpi : List (Date × ℚ)
  data_df : List (Date × Option ℚ)
deriving DecidableEq, Repr

/-- SPI_ECMWF.process: recomputes from the downloaded file on every call,
with no check of any previously stored result, stores the result on the
instance and returns it. -/
def SPI_process (st : SPIECMWFState) (sdate edate : Date) :
    SPIECMWFState × List (Date × Option ℚ) :=
  let df := spi_process_core st.downloadedSpi sdate edate
  (⟨st.downloadedSpi, df⟩, df)

/-- What DroughtIndex.generate_output does to the output file. -/
inductive OutputAction where
  | wroteFile
  | skippedExisting
deriving DecidableEq, Repr

/-- DroughtIndex.generate_output lines 349..364: writes the output file
only when it does not already exist; an existing file logs a warning, is
not rewritten, and no error is raised either way (second component). -/
def generate_output (fileExists : Bool) : OutputAction × Bool :=
  if fileExists then (OutputAction.skippedExisting, false)
  else (OutputAction.wroteFile, false)

/-- C9 (amended): process() ignores any result already stored on the
instance (so it always recomputes), a repeat call with unchanged inputs
returns an equal result, and reusing an already-written output file skips
the write without raising an error. -/
theorem C9_process_always_recomputes (st : SPIECMWFState) (sdate edate : Date)
    (d1 d2 : List (Date × Option ℚ)) :
    ((SPI_process ⟨st.downloadedSpi, d1⟩ sdate edate).2 =
      (SPI_process ⟨st.downloadedSpi, d2⟩ sdate edate).2) ∧
    ((SPI_process (SPI_process st sdate edate).1 sdate edate).2 =
      (SPI_process st sdate edate).2) ∧
    generate_output true = (OutputAction.skippedExisting, false) ∧
    generate_output false = (OutputAction.wroteFile, false) :=
  ⟨rfl, rfl, rfl, rfl⟩

set_option maxRecDepth 4000 in
/-- Counterexample for C9 as stated: an instance whose stored data_df holds
the result of a successful first call does not short-circuit; when the
downloaded file has changed, the second process() call returns the freshly
recomputed series, not the stored one, proving that a prior result on the
instance does not skip recomputation. -/
theorem C9_no_instance_cache_counterexample :
    (SPI_process ⟨[(⟨2020,1,1⟩, 1)], []⟩ ⟨2020,1,1⟩ ⟨2020,2,1⟩).2 =
      [(⟨2020,1,1⟩, some 1), (⟨2020,2,1⟩, none)] ∧
    (SPI_process ⟨[(⟨2020,1,1⟩, 2)], [(⟨2020,1,1⟩, some 1), (⟨2020,2,1⟩, none)]⟩
        ⟨2020,1,1⟩ ⟨2020,2,1⟩).2 =
      [(⟨2020,1,1⟩, some 2), (⟨2020,2,1⟩, none)] ∧
    (⟨[(⟨2020,1,1⟩, 2)], [(⟨2020,1,1⟩, some 1), (⟨2020,2,1⟩, none)]⟩ :
        SPIECMWFState).data_df ≠
      [(⟨2020,1,1⟩, some 2), (⟨2020,2,1⟩, none)] := by
  refine ⟨?_, ?_, ?_⟩ <;> decide

/-- A gridded 2-D field at one time step: the latitude axis, the longitude
axis and the value rows indexed by latitude then longitude; missing values
(NaN or dropped sentinel) are none. -/
structure Grid2 where
  lats : List ℚ
  lons : List ℚ
  vals : List (List (Option ℚ))
deriving DecidableEq, Repr

/-- Fuel-bounded splitting of a list into blocks of size c. -/
def chunksAux {α : Type} (c : Nat) : Nat → List α → List (List α)
  | 0, _ => []
  | fuel + 1, l =>
    if 0 < c ∧ c ≤ l.length then l.take c :: chunksAux c fuel (l.drop c) else []

/-- Split a list into consecutive blocks of size c, trimming any shorter
remainder, as xarray coarsen with boundary trim does. -/
def chunks {α : Type} (c : Nat) (l : List α) : List (List α) := chunksAux c l.length l

/-- Arithmetic mean of a list of rationals. -/
def qmean (l : List ℚ) : ℚ := l.sum / l.length

/-- Missing-skipping mean of a block (xarray coarsen mean with skipna):
none when the whole block is missing. -/
def optMean (l : List (Option ℚ)) : Option ℚ :=
  let v := l.filterMap id
  if v.length = 0 then none else some (v.sum / v.length)

/-- utils.regrid_like: block-average the field toward the grid of daLike by
the floor ratio of the axis lengths, averaging coordinates and values over
each block. -/
def regrid_like (da daLike : Grid2) : Grid2 :=
  let xc := da.lons.length / daLike.lons.length
  let yc := da.lats.length / daLike.lats.length
  { lats := (chunks yc da.lats).map qmean,
    lons := (chunks xc da.lons).map qmean,
    vals := (chunks yc da.vals).map (fun rows =>
      (List.range ((chunks xc da.lons).length)).map (fun j =>
        optMean ((rows.map (fun r => (r.drop (j * xc)).take xc)).flatten))) }

/-- Scan for the index of the nearest coordinate. -/
def nearestIdxAux (t : ℚ) : List ℚ → Nat → ℚ → Nat → Nat
  | [], _, _, besti => besti
  | c :: rest, i, bestd, besti =>
    if |c - t| < bestd then nearestIdxAux t rest (i + 1) |c - t| i
    else nearestIdxAux t rest (i + 1) bestd besti

/-- Index of the coordinate nearest to the target (first wins on ties), as
used by DataArray.reindex with method nearest. -/
def nearestIdx (cs : List ℚ) (t : ℚ) : Nat :=
  match cs with
  | [] => 0
  | c :: rest => nearestIdxAux t rest 1 |c - t| 0

/-- reindex with method nearest onto target axes: the result carries
exactly the target coordinates, each holding the value at the nearest
source coordinate. -/
def reindexNearest2 (g : Grid2) (tlats tlons : List ℚ) : Grid2 :=
  { lats := tlats, lons := tlons,
    vals := tlats.map (fun ty =>
      let row := g.vals.getD (nearestIdx g.lats ty) []
      tlons.map (fun tx => row.getD (nearestIdx g.lons tx) none)) }

/-- Value of a grid at a pair of axis positions, missing when out of range. -/
def gridGet (g : Grid2) (i j : Nat) : Option ℚ :=
  (g.vals.getD i []).getD j none

/-- CDI.process lines 896..943, the spatial composition at one time step
for a non-point region: SMA and fAPAR are coarsened toward the SPI grid by
regrid_like, reindexed onto the SPI axes by nearest neighbour, and only
then classified pointwise on the SPI grid. -/
def cdi_compose_spatial (spi sma fpr : Grid2) : Grid2 :=
  let sma2 := reindexNearest2 (regrid_like sma spi) spi.lats spi.lons
  let fpr2 := reindexNearest2 (regrid_like fpr spi) spi.lats spi.lons
  { lats := spi.lats, lons := spi.lons,
    vals := (List.range spi.lats.length).map (fun i =>
      (List.range spi.lons.length).map (fun j =>
        calc_cdi (gridGet spi i j) (gridGet sma2 i j) (gridGet fpr2 i j))) }

/-- getD on a mapped range evaluates the map function. -/
theorem getD_map_range {α : Type} (n i : Nat) (f : Nat → α) (d : α) (h : i < n) :
    ((List.range n).map f).getD i d = f i := by
  rw [List.getD_eq_getElem _ _ (by simpa using h)]
  simp

/-- C10: the composed CDI output carries exactly the SPI grid coordinates,
has the SPI grid dimensions, and every severity value is the classifier
applied to the SPI value together with the SMA and fAPAR values already
coarsened by regrid_like and nearest-neighbour reindexed onto the SPI axes,
so the severity code is never computed on the finer native grids. -/
theorem C10_compose_on_spi_grid (spi sma fpr : Grid2) :
    (cdi_compose_spatial spi sma fpr).lats = spi.lats ∧
    (cdi_compose_spatial spi sma fpr).lons = spi.lons ∧
    (cdi_compose_spatial spi sma fpr).vals.length = spi.lats.length ∧
    (∀ row ∈ (cdi_compose_spatial spi sma fpr).vals, row.length = spi.lons.length) ∧
    (∀ i j, i < spi.lats.length → j < spi.lons.length →
      gridGet (cdi_compose_spatial spi sma fpr) i j =
        calc_cdi (gridGet spi i j)
          (gridGet (reindexNearest2 (regrid_like sma spi) spi.lats spi.lons) i j)
          (gridGet (reindexNearest2 (regrid_like fpr spi) spi.lats spi.lons) i j)) := by
  refine ⟨rfl, rfl, by simp [cdi_compose_spatial], ?_, ?_⟩
  · intro row hrow
    simp only [cdi_compose_spatial, List.mem_map] at hrow
    obtain ⟨i, _, rfl⟩ := hrow
    simp
  · intro i j hi hj
    rw [gridGet]
    show ((cdi_compose_spatial spi sma fpr).vals.getD i []).getD j none = _
    rw [show (cdi_compose_spatial spi sma fpr).vals =
      (List.range spi.lats.length).map (fun i =>
        (List.range spi.lons.length).map (fun j =>
          calc_cdi (gridGet spi i j)
            (gridGet (reindexNearest2 (regrid_like sma spi) spi.lats spi.lons) i j)
            (gridGet (reindexNearest2 (regrid_like fpr spi) spi.lats spi.lons) i j)))
      from rfl]
    rw [getD_map_range _ _ _ _ hi, getD_map_range _ _ _ _ hj]

/-- Witness for C10 on a one-cell SPI grid with two-cell SMA and fAPAR
grids. -/
theorem C10_compose_on_spi_grid_witness :
    (cdi_compose_spatial ⟨[0], [0], [[some (-2)]]⟩
        ⟨[0, 1], [0, 1], [[some (-2), some 0], [some 0, some 0]]⟩
        ⟨[0, 1], [0, 1], [[some (-2), some 0], [some 0, some 0]]⟩).lats =
      (⟨[0], [0], [[some (-2)]]⟩ : Grid2).lats ∧
    gridGet (cdi_compose_spatial ⟨[0], [0], [[some (-2)]]⟩
        ⟨[0, 1], [0, 1], [[some (-2), some 0], [some 0, some 0]]⟩
        ⟨[0, 1], [0, 1], [[some (-2), some 0], [some 0, some 0]]⟩) 0 0 =
      calc_cdi (gridGet ⟨[0], [0], [[some (-2)]]⟩ 0 0)
        (gridGet (reindexNearest2
          (regrid_like ⟨[0, 1], [0, 1], [[some (-2), some 0], [some 0, some 0]]⟩
            ⟨[0], [0], [[some (-2)]]⟩)
          (⟨[0], [0], [[some (-2)]]⟩ : Grid2).lats
          (⟨[0], [0], [[some (-2)]]⟩ : Grid2).lons) 0 0)
        (gridGet (reindexNearest2
          (regrid_like ⟨[0, 1], [0, 1], [[some (-2), some 0], [some 0, some 0]]⟩
            ⟨[0], [0], [[some (-2)]]⟩)
          (⟨[0], [0], [[some (-2)]]⟩ : Grid2).lats
          (⟨[0], [0], [[some (-2)]]⟩ : Grid2).lons) 0 0) :=
  ⟨(C10_compose_on_spi_grid _ _ _).1,
    (C10_compose_on_spi_grid _ _ _).2.2.2.2 0 0 (by decide) (by decide)⟩
